import Mathlib

/-!
Verification development for the falcon tabular task-management layer
(`falcon/tabular/tabular_manager.py` and `falcon/tabular/configurations.py`).

The Python sources are shallowly embedded below.  Numpy arrays are modelled
by their shape together with a flat payload; the external collaborators the
manager calls into (`read_data`, `split_features`, `clean_data_split`,
`get_cat_mask`, the pipeline's `fit`/`predict`, `tab_cv_score`,
`calculate_model_score`, `train_test_split`) are kept abstract: they appear
either as opaque function parameters or as events in an observable trace,
since the claims under scrutiny concern the manager's control flow, not the
numerics of the collaborators.
-/

namespace Falcon

/-- Model of a numpy `ndarray`: its shape (list of dimension sizes) and a flat
payload of entries.  Only the shape is inspected by the manager's control flow. -/
structure NDArr where
  shape : List Nat
  data : List Int
deriving DecidableEq, Repr

/-- Model of `numpy.ravel`: the result is one-dimensional, keeping the payload. -/
def ravel (a : NDArr) : NDArr :=
  { shape := [a.shape.prod], data := a.data }

/-- Data accepted by the manager: a filesystem path or an in-memory array
(`Union[str, npt.NDArray, pd.DataFrame]` in the source; dataframes and arrays
are modelled alike since the manager treats them uniformly after coercion). -/
inductive DataIn where
  | path (s : String)
  | arr (a : NDArr)
deriving DecidableEq, Repr

/-- State of a `TabularTaskManager`: the task string, the prepared training
data `self._data = (X, y, mask)`, and the construction-time `features` /
`target` column selections (column indices in the model). -/
structure MgrState where
  task : String
  dataX : NDArr
  dataY : NDArr
  mask : List Bool
  features : Option (List Nat)
  target : Option Nat
deriving DecidableEq, Repr

/-- Row count of the prepared feature matrix, `self._data[0].shape[0]`. -/
def rowsOf (m : MgrState) : Nat := m.dataX.shape.getD 0 0

/-- Column count of the prepared feature matrix, `self._data[0].shape[1]`. -/
def colsOf (m : MgrState) : Nat := m.dataX.shape.getD 1 0

/-- Which portion of the prepared dataset a pipeline call receives during
`train`: the full data, the 75% training split, or the 25% held-out split. -/
inductive Portion where
  | full
  | train75
  | test25
deriving DecidableEq, Repr

/-- Observable events of `TabularTaskManager.train`, in program order:
verbosity changes via `set_verbosity_level`, the `tab_cv_score` call on the
manager's own pipeline, the `deepcopy` of the pipeline, `fit`/`predict` calls
on the copied pipeline, `fit` calls on the manager's primary pipeline, and the
final `print` of the estimated score. -/
inductive Ev where
  | setVerbosity (lvl : Int)
  | cvScorePrimary
  | deepcopyPrimary
  | fitCopy (p : Portion)
  | predictCopy (p : Portion)
  | fitPrimary (p : Portion)
  | printScore (v : Int)
deriving DecidableEq, Repr

/-- Outcomes of the fallible collaborator calls inside `train`, supplied as
parameters of the model: `v0` is the current value of the process-wide
verbosity level (`int(os.getenv("FALCON_VERBOSITYLEVEL", "1"))`), the `Bool`
fields say whether the corresponding collaborator call raises, and the `Int`
fields are the scores produced on success. -/
structure TrainOutcomes where
  v0 : Int
  cvRaises : Bool
  cvValue : Int
  copyFitRaises : Bool
  copyPredictRaises : Bool
  splitValue : Int
  finalFitRaises : Bool
deriving DecidableEq, Repr

/-- The pre-evaluation block of `train` (source lines 137-155): verbosity is
set to 0, then either `tab_cv_score` runs on the manager's own pipeline (when
`rows * cols < 50000` or `rows < 500`), or the data is split 75/25, a deep
copy of the pipeline is fitted on the 75% part and predicts on the 25% part.
The result is the event trace so far: `Except.error` when a collaborator
raises (the trace records the calls made up to and including the raising
one), `Except.ok` with the average score on success. -/
def preEvalPhase (m : MgrState) (o : TrainOutcomes) : Except (List Ev) (List Ev × Int) :=
  if rowsOf m * colsOf m < 50000 ∨ rowsOf m < 500 then
    if o.cvRaises then
      .error [Ev.setVerbosity 0, Ev.cvScorePrimary]
    else
      .ok ([Ev.setVerbosity 0, Ev.cvScorePrimary], o.cvValue)
  else
    if o.copyFitRaises then
      .error [Ev.setVerbosity 0, Ev.deepcopyPrimary, Ev.fitCopy Portion.train75]
    else if o.copyPredictRaises then
      .error [Ev.setVerbosity 0, Ev.deepcopyPrimary, Ev.fitCopy Portion.train75,
              Ev.predictCopy Portion.test25]
    else
      .ok ([Ev.setVerbosity 0, Ev.deepcopyPrimary, Ev.fitCopy Portion.train75,
            Ev.predictCopy Portion.test25], o.splitValue)

/-- Model of `TabularTaskManager.train(pre_eval)` (source lines 118-161).  When
`pre_eval` holds, the pre-evaluation block runs first; note that in the source
the restoring `set_verbosity_level(old_verbosity_level)` at line 155 follows
the `if`/`else` with no `try`/`finally`, so it is reached only when the block
completes normally.  Afterwards `self._pipeline.fit` runs on the full prepared
dataset, and the score is printed when pre-evaluation ran.  On success the
manager itself (`return self`) is returned together with the full trace; a
raising collaborator propagates as `Except.error` carrying the trace at the
point of the raise. -/
def train (m : MgrState) (preEval : Bool) (o : TrainOutcomes) :
    Except (List Ev) (List Ev × MgrState) :=
  if preEval then
    match preEvalPhase m o with
    | .error t => .error t
    | .ok (t, score) =>
      let t2 := t ++ [Ev.setVerbosity o.v0, Ev.fitPrimary Portion.full]
      if o.finalFitRaises then .error t2
      else .ok (t2 ++ [Ev.printScore score], m)
  else
    if o.finalFitRaises then .error [Ev.fitPrimary Portion.full]
    else .ok ([Ev.fitPrimary Portion.full], m)

/-- The event trace of a `train` call, whether it completes or raises. -/
def traceOf (m : MgrState) (preEval : Bool) (o : TrainOutcomes) : List Ev :=
  match train m preEval o with
  | .error t => t
  | .ok (t, _) => t

/-- Value of the process-wide verbosity level after a trace, starting from the
level `v0` that was current when `train` began. -/
def verbosityAfter (v0 : Int) (t : List Ev) : Int :=
  t.foldl (fun v e => match e with | Ev.setVerbosity l => l | _ => v) v0

/-- Whether an event is a `fit` call on the manager's primary pipeline. -/
def fitsPrimary : Ev → Bool
  | Ev.fitPrimary _ => true
  | _ => false

/-- Whether a trace contains a `print` of the estimated score. -/
def hasPrintScore (t : List Ev) : Bool :=
  t.any fun e => match e with | Ev.printScore _ => true | _ => false

/-- The external data-preparation and pipeline collaborators used by
`_prepare_data`, `predict` and `evaluate` (`falcon.tabular.utils` and the
pipeline object; external to the manager, kept fully abstract). -/
structure Collab where
  read_data : String → NDArr
  split_features : NDArr → Option (List Nat) → Option Nat → NDArr × NDArr
  clean_data_split : NDArr × NDArr → NDArr × NDArr
  get_cat_mask : NDArr → List Bool
  pipeline_predict : NDArr → NDArr

/-- The `isinstance(data, str)` / `read_data` step shared by `_prepare_data`
and `predict`: a path is loaded, an in-memory array is used as given. -/
def loadData (c : Collab) : DataIn → NDArr
  | DataIn.path s => c.read_data s
  | DataIn.arr a => a

/-- Model of `TabularTaskManager._prepare_data(data, training)` (source lines
69-100): load, split into features/target, clean, compute the categorical
mask only when `training` holds (empty mask otherwise), and flatten a 2-D `y`
to 1-D via `ravel`. -/
def prepareData (c : Collab) (features : Option (List Nat)) (target : Option Nat)
    (data : DataIn) (training : Bool) : NDArr × NDArr × List Bool :=
  let d := loadData c data
  let sp := c.split_features d features target
  let cl := c.clean_data_split sp
  let mask : List Bool := if training then c.get_cat_mask cl.1 else []
  let y := if cl.2.shape.length = 2 then ravel cl.2 else cl.2
  (cl.1, y, mask)

/-- Model of `TabularTaskManager.predict(data)` (source lines 163-181): load
when given a path, delegate to `self._pipeline.predict`.  No refit occurs. -/
def predictM (c : Collab) (data : DataIn) : NDArr :=
  c.pipeline_predict (loadData c data)

/-- The report printed by `evaluate`: the task-appropriate report function
applied to `(y_true, y_pred)`. -/
inductive Report where
  | classification (y yhat : NDArr)
  | regression (y yhat : NDArr)
deriving DecidableEq, Repr

/-- Whether a report is the classification report. -/
def Report.isClassificationReport : Report → Bool
  | Report.classification _ _ => true
  | _ => false

/-- Whether a report is the regression report. -/
def Report.isRegressionReport : Report → Bool
  | Report.regression _ _ => true
  | _ => false

/-- Model of `TabularTaskManager.evaluate(test_data)` (source lines 195-210):
re-prepare the test data with `training = False`, predict on the prepared
features, and print the classification report when `self.task ==
"tabular_classification"`, else the regression report.  The manager state is
returned alongside the report to make explicit that `evaluate` leaves it
untouched. -/
def evaluate (c : Collab) (m : MgrState) (testData : DataIn) : MgrState × Report :=
  let p := prepareData c m.features m.target testData false
  let y := p.2.1
  let yhat := predictM c (DataIn.arr p.1)
  if m.task = "tabular_classification" then (m, Report.classification y yhat)
  else (m, Report.regression y yhat)

/-! ### Pipeline options

`default_pipeline_options` lives in `tabular_manager.py` (lines 110-116); the
resolution of the effective options from `pipeline_options` and
`extra_pipeline_options` happens in the base `TaskManager` constructor
(`falcon.abstract`), which is not among the sources and is therefore modelled
from the spec. -/

/-- Values stored in a pipeline-options dictionary. -/
inductive OptVal where
  | maskV (m : List Bool)
  | learnerV (s : String)
  | otherV (s : String)
deriving DecidableEq, Repr

/-- A Python dict of pipeline options, modelled as an association list keyed
by strings; equality of dicts is taken up to `alookup`. -/
abbrev Options := List (String × OptVal)

/-- First-match association-list lookup (Python dict access). -/
def alookup {α : Type} : List (String × α) → String → Option α
  | [], _ => none
  | (k, v) :: rest, k' => if k = k' then some v else alookup rest k'

/-- Python dict merge `{**a, **b}` up to lookup: entries of `b` win over
entries of `a` with the same key, entries of `a` with keys absent from `b`
are kept. -/
def dictUpdate (a b : Options) : Options :=
  a.filter (fun p => (alookup b p.1).isNone) ++ b

/-- Model of the `default_pipeline_options` property (source lines 110-116):
`{"mask": self._data[2]}`. -/
def default_pipeline_options (m : MgrState) : Options :=
  [("mask", OptVal.maskV m.mask)]

/-- Modelled from the spec: the effective pipeline-option resolution performed
by the base `TaskManager` constructor (`falcon.abstract`, not among the
sources).  Per the spec, `pipeline_options` fully overrides the defaults and
makes `extra_pipeline_options` ignored entirely; `extra_pipeline_options`
alone merges with (does not override) the defaults. -/
def effectivePipelineOptions (defaults : Options)
    (pipelineOpts extraOpts : Option Options) : Options :=
  match pipelineOpts with
  | some p => p
  | none =>
    match extraOpts with
    | some e => dictUpdate defaults e
    | none => defaults

/-! ### Construction-time validation of `features` / `target`

The consistency check and the default last-column split live in the base
`TaskManager` constructor and in `falcon.tabular.utils.split_features`, both
outside the sources; they are modelled from the spec. -/

/-- Errors surfaced at construction. -/
inductive FalconError where
  | configurationError
deriving DecidableEq, Repr

/-- Modelled from the spec: the `features`/`target` consistency check of the
base `TaskManager` constructor (`falcon.abstract`, not among the sources) and
the default split of `falcon.tabular.utils.split_features`.  Construction
fails with a `ConfigurationError` when exactly one of `features` and `target`
is given; when neither is given, the last of the `ncols` columns is the
target and all other columns are the features; columns are modelled by their
indices. -/
def resolveColumns (features : Option (List Nat)) (target : Option Nat)
    (ncols : Nat) : Except FalconError (List Nat × Nat) :=
  match features, target with
  | some _, none => .error FalconError.configurationError
  | none, some _ => .error FalconError.configurationError
  | some f, some t => .ok (f, t)
  | none, none => .ok (List.range (ncols - 1), ncols - 1)

/-! ### Configuration registry (`falcon/tabular/configurations.py`)

The configuration dictionaries are embedded verbatim.  The estimator lists
`_default_estimators[task][tier]` are imported there from
`falcon.tabular.learners.super_learner`, which is not among the sources; per
the spec the core passes them opaquely, so they are modelled as opaque
references `EstimatorListRef` naming the task type and tier they come from. -/

/-- The two task types. -/
inductive TaskType where
  | tabular_classification
  | tabular_regression
deriving DecidableEq, Repr

/-- The estimator tiers; `xlarge` corresponds to the Python tier key
`x-large`. -/
inductive TierName where
  | mini
  | mid
  | large
  | xlarge
deriving DecidableEq, Repr

/-- Opaque reference to the list `_default_estimators[task][tier]` from
`falcon.tabular.learners.super_learner` (not among the sources; passed
opaquely by the core). -/
structure EstimatorListRef where
  task : TaskType
  tier : TierName
deriving DecidableEq, Repr

/-- The pipeline classes appearing in the configuration dictionaries. -/
inductive PipelineClass where
  | SimpleTabularPipeline
deriving DecidableEq, Repr

/-- The learner classes appearing in the configuration dictionaries. -/
inductive LearnerClass where
  | SuperLearner
  | OptunaLearner
  | PlainLearner
deriving DecidableEq, Repr

/-- The model classes appearing in the configuration dictionaries. -/
inductive ModelClass where
  | HistGradientBoostingClassifier
  | HistGradientBoostingRegressor
deriving DecidableEq, Repr

/-- The `learner_kwargs` dictionaries appearing in the configurations: empty,
`{cv, base_estimators}` for tiered super-learner profiles, or `{model_class}`
for Optuna/Plain profiles. -/
inductive LearnerKwargs where
  | empty
  | cvEstimators (cv : Nat) (base_estimators : EstimatorListRef)
  | modelClass (model_class : ModelClass)
deriving DecidableEq, Repr

/-- The `extra_pipeline_options` record of a configuration entry:
`{"learner": ..., "learner_kwargs": ...}`. -/
structure ExtraPipelineOpts where
  learner : LearnerClass
  learner_kwargs : LearnerKwargs
deriving DecidableEq, Repr

/-- One configuration entry:
`{"pipeline": ..., "extra_pipeline_options": ...}`. -/
structure ConfigEntry where
  pipeline : PipelineClass
  extra_pipeline_options : ExtraPipelineOpts
deriving DecidableEq, Repr

/-- `SUPER_LEARNER_DEFAULT_CONFIG` (configurations.py lines 6-12). -/
def SUPER_LEARNER_DEFAULT_CONFIG : ConfigEntry :=
  ⟨PipelineClass.SimpleTabularPipeline,
   ⟨LearnerClass.SuperLearner, LearnerKwargs.empty⟩⟩

/-- `OPTUNA_LEARNER_DEFAULT_CONFIG` (configurations.py lines 14-20). -/
def OPTUNA_LEARNER_DEFAULT_CONFIG : ConfigEntry :=
  ⟨PipelineClass.SimpleTabularPipeline,
   ⟨LearnerClass.OptunaLearner, LearnerKwargs.empty⟩⟩

/-- `PLAIN_LEARNER_DEFAULT_CONFIG` (configurations.py lines 22-28). -/
def PLAIN_LEARNER_DEFAULT_CONFIG : ConfigEntry :=
  ⟨PipelineClass.SimpleTabularPipeline,
   ⟨LearnerClass.PlainLearner, LearnerKwargs.empty⟩⟩

/-- `TABULAR_CLASSIFICATION_CONFIGURATIONS` (configurations.py lines 30-95),
embedded entry for entry in source order. -/
def TABULAR_CLASSIFICATION_CONFIGURATIONS : List (String × ConfigEntry) :=
  [("SuperLearner.mini",
    ⟨PipelineClass.SimpleTabularPipeline,
     ⟨LearnerClass.SuperLearner,
      LearnerKwargs.cvEstimators 10 ⟨TaskType.tabular_classification, TierName.mini⟩⟩⟩),
   ("SuperLearner.mid",
    ⟨PipelineClass.SimpleTabularPipeline,
     ⟨LearnerClass.SuperLearner,
      LearnerKwargs.cvEstimators 5 ⟨TaskType.tabular_classification, TierName.mid⟩⟩⟩),
   ("SuperLearner.large",
    ⟨PipelineClass.SimpleTabularPipeline,
     ⟨LearnerClass.SuperLearner,
      LearnerKwargs.cvEstimators 3 ⟨TaskType.tabular_classification, TierName.large⟩⟩⟩),
   ("SuperLearner.xlarge",
    ⟨PipelineClass.SimpleTabularPipeline,
     ⟨LearnerClass.SuperLearner,
      LearnerKwargs.cvEstimators 3 ⟨TaskType.tabular_classification, TierName.xlarge⟩⟩⟩),
   ("OptunaLearner.hgbt",
    ⟨PipelineClass.SimpleTabularPipeline,
     ⟨LearnerClass.OptunaLearner,
      LearnerKwargs.modelClass ModelClass.HistGradientBoostingClassifier⟩⟩),
   ("PlainLearner.hgbt",
    ⟨PipelineClass.SimpleTabularPipeline,
     ⟨LearnerClass.PlainLearner,
      LearnerKwargs.modelClass ModelClass.HistGradientBoostingClassifier⟩⟩),
   ("SuperLearner", SUPER_LEARNER_DEFAULT_CONFIG),
   ("OptunaLearner", OPTUNA_LEARNER_DEFAULT_CONFIG),
   ("PlainLearner", PLAIN_LEARNER_DEFAULT_CONFIG)]

/-- `TABULAR_REGRESSION_CONFIGURATIONS` (configurations.py lines 97-161),
embedded entry for entry in source order. -/
def TABULAR_REGRESSION_CONFIGURATIONS : List (String × ConfigEntry) :=
  [("SuperLearner.mini",
    ⟨PipelineClass.SimpleTabularPipeline,
     ⟨LearnerClass.SuperLearner,
      LearnerKwargs.cvEstimators 10 ⟨TaskType.tabular_regression, TierName.mini⟩⟩⟩),
   ("SuperLearner.mid",
    ⟨PipelineClass.SimpleTabularPipeline,
     ⟨LearnerClass.SuperLearner,
      LearnerKwargs.cvEstimators 5 ⟨TaskType.tabular_regression, TierName.mid⟩⟩⟩),
   ("SuperLearner.large",
    ⟨PipelineClass.SimpleTabularPipeline,
     ⟨LearnerClass.SuperLearner,
      LearnerKwargs.cvEstimators 3 ⟨TaskType.tabular_regression, TierName.large⟩⟩⟩),
   ("SuperLearner.xlarge",
    ⟨PipelineClass.SimpleTabularPipeline,
     ⟨LearnerClass.SuperLearner,
      LearnerKwargs.cvEstimators 3 ⟨TaskType.tabular_regression, TierName.xlarge⟩⟩⟩),
   ("OptunaLearner.hgbt",
    ⟨PipelineClass.SimpleTabularPipeline,
     ⟨LearnerClass.OptunaLearner,
      LearnerKwargs.modelClass ModelClass.HistGradientBoostingRegressor⟩⟩),
   ("PlainLearner.hgbt",
    ⟨PipelineClass.SimpleTabularPipeline,
     ⟨LearnerClass.PlainLearner,
      LearnerKwargs.modelClass ModelClass.HistGradientBoostingRegressor⟩⟩),
   ("SuperLearner", SUPER_LEARNER_DEFAULT_CONFIG),
   ("OptunaLearner", OPTUNA_LEARNER_DEFAULT_CONFIG),
   ("PlainLearner", PLAIN_LEARNER_DEFAULT_CONFIG)]

/-- The configuration registry for a task type. -/
def configsFor : TaskType → List (String × ConfigEntry)
  | TaskType.tabular_classification => TABULAR_CLASSIFICATION_CONFIGURATIONS
  | TaskType.tabular_regression => TABULAR_REGRESSION_CONFIGURATIONS

/-- Profile-name resolution: exact-string lookup of a profile name in the
registry of the given task type (the spec's Configuration Registry
resolution). -/
def resolveConfiguration (task : TaskType) (name : String) : Option ConfigEntry :=
  alookup (configsFor task) name

/-- The profile key of the tiered super-learner profile for a tier. -/
def superProfileKey : TierName → String
  | TierName.mini => "SuperLearner.mini"
  | TierName.mid => "SuperLearner.mid"
  | TierName.large => "SuperLearner.large"
  | TierName.xlarge => "SuperLearner.xlarge"

/-- The CV fold count the spec assigns to each tier (10/5/3/3 for
mini/mid/large/x-large). -/
def specTierCV : TierName → Nat
  | TierName.mini => 10
  | TierName.mid => 5
  | TierName.large => 3
  | TierName.xlarge => 3

/-! ### Concrete fixtures used by witnesses and counterexamples -/

/-- A manager over a 10 x 10 dataset (cheap-data shape: `10 * 10 < 50000`). -/
def mSmall : MgrState :=
  ⟨"tabular_classification", ⟨[10, 10], []⟩, ⟨[10], []⟩, [true], none, none⟩

/-- A second manager with the same 10 x 10 shape but different payload,
task and mask. -/
def mSmall2 : MgrState :=
  ⟨"tabular_regression", ⟨[10, 10], []⟩, ⟨[10], [5]⟩, [false], none, none⟩

/-- A manager over a 500 x 100 dataset (expensive-data shape: `rows ≥ 500`
and `rows * cols = 50000 ≥ 50000`). -/
def m500 : MgrState :=
  ⟨"tabular_regression", ⟨[500, 100], []⟩, ⟨[500], []⟩, [false], none, none⟩

/-- Collaborator outcomes where every call succeeds and the prior verbosity
level is 1. -/
def oPlain : TrainOutcomes := ⟨1, false, 7, false, false, 9, false⟩

/-- Collaborator outcomes where `tab_cv_score` raises; prior verbosity 1. -/
def oCvRaise : TrainOutcomes := ⟨1, true, 7, false, false, 9, false⟩

/-- The trace of a fully successful `train(pre_eval=True)` on a cheap-data
shape with prior verbosity 1 and CV score 7. -/
def tCvOk : List Ev :=
  [Ev.setVerbosity 0, Ev.cvScorePrimary, Ev.setVerbosity 1,
   Ev.fitPrimary Portion.full, Ev.printScore 7]

/-- The trace of a fully successful `train(pre_eval=True)` on an
expensive-data shape with prior verbosity 1 and split score 9. -/
def tSplitOk : List Ev :=
  [Ev.setVerbosity 0, Ev.deepcopyPrimary, Ev.fitCopy Portion.train75,
   Ev.predictCopy Portion.test25, Ev.setVerbosity 1,
   Ev.fitPrimary Portion.full, Ev.printScore 9]

/-- Concrete collaborators for the data-preparation witnesses: the split
produces a 3 x 1 target, cleaning is the identity. -/
def cWit : Collab :=
  ⟨fun _ => ⟨[2, 2], [0, 0, 0, 0]⟩,
   fun d _ _ => (d, ⟨[3, 1], [1, 2, 3]⟩),
   fun pr => pr,
   fun a => a.shape.map (fun _ => false),
   fun a => a⟩

/-- Concrete test input for the data-preparation witnesses. -/
def dWit : DataIn := DataIn.arr ⟨[3, 2], [0, 0, 0, 0, 0, 0]⟩

/-- Concrete `extra_pipeline_options` for the options witness. -/
def eWit : Options := [("learner", OptVal.learnerV "PlainLearner")]

/-- Concrete manager for the options witness. -/
def mWit : MgrState :=
  ⟨"tabular_classification", ⟨[3, 2], [0, 0, 0, 0, 0, 0]⟩, ⟨[3], [0, 0, 0]⟩,
   [true, false], none, none⟩

/-! ### Shared lemmas -/

/-- The `tab_cv_score` call appears in the trace of `train(pre_eval=True)`
exactly when the cheap-data condition holds. -/
theorem cvScore_mem_trace (m : MgrState) (o : TrainOutcomes) :
    Ev.cvScorePrimary ∈ traceOf m true o ↔
      (rowsOf m * colsOf m < 50000 ∨ rowsOf m < 500) := by
  obtain ⟨v0, cvR, cvV, cfR, cpR, sV, ffR⟩ := o
  by_cases h : rowsOf m * colsOf m < 50000 ∨ rowsOf m < 500 <;>
    cases cvR <;> cases cfR <;> cases cpR <;> cases ffR <;>
      simp [traceOf, train, preEvalPhase, h]

/-- The `deepcopy` of the pipeline appears in the trace of
`train(pre_eval=True)` exactly when the cheap-data condition fails. -/
theorem deepcopy_mem_trace (m : MgrState) (o : TrainOutcomes) :
    Ev.deepcopyPrimary ∈ traceOf m true o ↔
      ¬(rowsOf m * colsOf m < 50000 ∨ rowsOf m < 500) := by
  obtain ⟨v0, cvR, cvV, cfR, cpR, sV, ffR⟩ := o
  by_cases h : rowsOf m * colsOf m < 50000 ∨ rowsOf m < 500 <;>
    cases cvR <;> cases cfR <;> cases cpR <;> cases ffR <;>
      simp [traceOf, train, preEvalPhase, h]

/-- Lookup distributes over list append, preferring the left list. -/
theorem alookup_append (l₁ l₂ : List (String × OptVal)) (k : String) :
    alookup (l₁ ++ l₂) k =
      if (alookup l₁ k).isSome then alookup l₁ k else alookup l₂ k := by
  induction l₁ with
  | nil => simp [alookup]
  | cons p tl ih =>
    obtain ⟨k', v⟩ := p
    by_cases hk : k' = k <;> simp [alookup, hk, ih]

/-- Entries whose key is bound in `b` are removed by the `dictUpdate`
filter. -/
theorem alookup_filter_of_isSome (a b : Options) (k : String)
    (h : (alookup b k).isSome) :
    alookup (a.filter (fun p => (alookup b p.1).isNone)) k = none := by
  induction a with
  | nil => simp [alookup]
  | cons p tl ih =>
    obtain ⟨k', v⟩ := p
    by_cases hk : k' = k
    · subst hk
      have hb : ¬alookup b k' = none := by
        intro hnone
        rw [hnone] at h
        simp at h
      simp [List.filter_cons, hb, ih]
    · by_cases hb : (alookup b k') = none <;>
        simp [List.filter_cons, hb, alookup, hk, ih]

/-- Entries whose key is unbound in `b` survive the `dictUpdate` filter with
their lookup unchanged. -/
theorem alookup_filter_of_none (a b : Options) (k : String)
    (h : alookup b k = none) :
    alookup (a.filter (fun p => (alookup b p.1).isNone)) k = alookup a k := by
  induction a with
  | nil => simp
  | cons p tl ih =>
    obtain ⟨k', v⟩ := p
    by_cases hk : k' = k
    · subst hk
      simp [List.filter_cons, h, alookup]
    · by_cases hb : (alookup b k') = none <;>
        simp [List.filter_cons, hb, alookup, hk, ih]

/-- Lookup in a merged dict `{**a, **b}`: keys of `b` win, other keys fall
back to `a`. -/
theorem alookup_dictUpdate (a b : Options) (k : String) :
    alookup (dictUpdate a b) k =
      if (alookup b k).isSome then alookup b k else alookup a k := by
  unfold dictUpdate
  rw [alookup_append]
  cases h : alookup b k with
  | some v =>
    rw [alookup_filter_of_isSome a b k (by simp [h])]
    simp [h]
  | none =>
    rw [alookup_filter_of_none a b k h]
    simp [h]
    intro h2
    simp [h2]

/-! ### Claim theorems -/

/-- C1: `train(pre_eval=True)` chooses the pre-evaluation branch as a pure
function of the shape of `X`: the `tab_cv_score` call on the configured
pipeline happens exactly when `rows * cols < 50000` or `rows < 500`, the
25% held-out-split branch (marked by the pipeline deepcopy) happens exactly
otherwise, and two managers with the same shape take the same branch
whatever the collaborator outcomes are. -/
theorem train_preEval_branch_pure (m m' : MgrState) (o o' : TrainOutcomes)
    (hr : rowsOf m = rowsOf m') (hc : colsOf m = colsOf m') :
    ((Ev.cvScorePrimary ∈ traceOf m true o) ↔
      (rowsOf m * colsOf m < 50000 ∨ rowsOf m < 500)) ∧
    ((Ev.deepcopyPrimary ∈ traceOf m true o) ↔
      ¬(rowsOf m * colsOf m < 50000 ∨ rowsOf m < 500)) ∧
    ((Ev.cvScorePrimary ∈ traceOf m true o) ↔
      (Ev.cvScorePrimary ∈ traceOf m' true o')) := by
  refine ⟨cvScore_mem_trace m o, deepcopy_mem_trace m o, ?_⟩
  rw [cvScore_mem_trace m o, cvScore_mem_trace m' o', hr, hc]

/-- Witness for C1 on concrete inputs: a 10 x 10 manager takes the CV branch,
and a second manager of the same shape with different payload and outcomes
takes the same branch. -/
theorem train_preEval_branch_pure_witness :
    ((Ev.cvScorePrimary ∈ traceOf mSmall true oPlain) ↔
      (rowsOf mSmall * colsOf mSmall < 50000 ∨ rowsOf mSmall < 500)) ∧
    ((Ev.deepcopyPrimary ∈ traceOf mSmall true oPlain) ↔
      ¬(rowsOf mSmall * colsOf mSmall < 50000 ∨ rowsOf mSmall < 500)) ∧
    ((Ev.cvScorePrimary ∈ traceOf mSmall true oPlain) ↔
      (Ev.cvScorePrimary ∈ traceOf mSmall2 true oCvRaise)) :=
  train_preEval_branch_pure mSmall mSmall2 oPlain oCvRaise (by decide) (by decide)

/-- C2 counterexample: on a 10 x 10 dataset with prior verbosity level 1,
when `tab_cv_score` raises, `train(pre_eval=True)` propagates the error with
the process-wide verbosity level still at 0 — the restoring
`set_verbosity_level(old_verbosity_level)` is never reached, contradicting
the claim that the prior value is restored on the failure path. -/
theorem train_verbosity_cex :
    train mSmall true oCvRaise = .error [Ev.setVerbosity 0, Ev.cvScorePrimary] ∧
    oCvRaise.v0 = 1 ∧
    verbosityAfter oCvRaise.v0 [Ev.setVerbosity 0, Ev.cvScorePrimary] = 0 :=
  ⟨rfl, rfl, rfl⟩

/-- C2 (amended): during pre-evaluation the verbosity level is set to 0
(first event of the trace), and the prior value is restored on the success
path of the pre-evaluation block; on the failure path — when the scoring or
the copied-pipeline fit or predict raises — the restoration is not reached
and the exception propagates with the verbosity level still at 0. -/
theorem train_verbosity_restored_success_only (m : MgrState) (o : TrainOutcomes) :
    ((traceOf m true o).head? = some (Ev.setVerbosity 0)) ∧
    (∀ t m', train m true o = .ok (t, m') → verbosityAfter o.v0 t = o.v0) ∧
    (∀ t, train m true o = .error t → o.finalFitRaises = false →
      verbosityAfter o.v0 t = 0) := by
  obtain ⟨v0, cvR, cvV, cfR, cpR, sV, ffR⟩ := o
  by_cases h : rowsOf m * colsOf m < 50000 ∨ rowsOf m < 500 <;>
    cases cvR <;> cases cfR <;> cases cpR <;> cases ffR <;>
      simp [traceOf, train, preEvalPhase, h, verbosityAfter]

/-- Witness for C2 (amended) on concrete inputs: the successful CV-branch run
restores verbosity 1, the raising run leaves it at 0. -/
theorem train_verbosity_restored_success_only_witness :
    verbosityAfter oPlain.v0 tCvOk = oPlain.v0 ∧
    verbosityAfter oCvRaise.v0 [Ev.setVerbosity 0, Ev.cvScorePrimary] = 0 :=
  ⟨(train_verbosity_restored_success_only mSmall oPlain).2.1 tCvOk mSmall rfl,
   (train_verbosity_restored_success_only mSmall oCvRaise).2.2
     [Ev.setVerbosity 0, Ev.cvScorePrimary] rfl rfl⟩

/-- C3: on datasets with `rows ≥ 500` and `rows * cols ≥ 50000`,
`train(pre_eval=True)` takes the split branch: the trace of a completed run
contains the pipeline deepcopy, the copied pipeline's fit on the 75% portion
and its predict on the 25% held-out portion, and the only fit ever applied
to the manager's primary pipeline is the final fit on the full dataset — the
primary pipeline is unfit until that call. -/
theorem train_split_branch_isolated (m : MgrState) (o : TrainOutcomes)
    (h1 : 500 ≤ rowsOf m) (h2 : 50000 ≤ rowsOf m * colsOf m)
    (t : List Ev) (m' : MgrState) (hok : train m true o = .ok (t, m')) :
    Ev.deepcopyPrimary ∈ t ∧ Ev.fitCopy Portion.train75 ∈ t ∧
    Ev.predictCopy Portion.test25 ∈ t ∧
    t.filter fitsPrimary = [Ev.fitPrimary Portion.full] := by
  have hcond : ¬(rowsOf m * colsOf m < 50000 ∨ rowsOf m < 500) := by omega
  obtain ⟨v0, cvR, cvV, cfR, cpR, sV, ffR⟩ := o
  cases cfR <;> cases cpR <;> cases ffR <;>
    simp [train, preEvalPhase, hcond] at hok <;>
    obtain ⟨ht, hm⟩ := hok <;> subst ht <;> simp [fitsPrimary]

/-- Witness for C3 on a concrete 500 x 100 manager with all collaborator
calls succeeding. -/
theorem train_split_branch_isolated_witness :
    Ev.deepcopyPrimary ∈ tSplitOk ∧ Ev.fitCopy Portion.train75 ∈ tSplitOk ∧
    Ev.predictCopy Portion.test25 ∈ tSplitOk ∧
    tSplitOk.filter fitsPrimary = [Ev.fitPrimary Portion.full] :=
  train_split_branch_isolated m500 oPlain (by decide) (by decide)
    tSplitOk m500 rfl

/-- C6: for either value of `pre_eval`, a completed `train` run has performed
`pipeline.fit` on the full prepared dataset, has returned `self` (the
manager it was called on), and has printed the estimated score exactly when
pre-evaluation ran. -/
theorem train_always_fits_full (m : MgrState) (preEval : Bool)
    (o : TrainOutcomes) (t : List Ev) (m' : MgrState)
    (hok : train m preEval o = .ok (t, m')) :
    Ev.fitPrimary Portion.full ∈ t ∧ m' = m ∧
    (hasPrintScore t = true ↔ preEval = true) := by
  obtain ⟨v0, cvR, cvV, cfR, cpR, sV, ffR⟩ := o
  by_cases h : rowsOf m * colsOf m < 50000 ∨ rowsOf m < 500 <;>
    cases preEval <;> cases cvR <;> cases cfR <;> cases cpR <;> cases ffR <;>
      simp [train, preEvalPhase, h] at hok <;>
      obtain ⟨ht, hm⟩ := hok <;> subst ht <;>
        simp [hm, hasPrintScore]

/-- Witness for C6 on concrete inputs: one completed run with pre-evaluation
(score printed) and one without (no score printed); both fit the primary
pipeline on the full dataset and return the manager itself. -/
theorem train_always_fits_full_witness :
    (Ev.fitPrimary Portion.full ∈ tCvOk ∧ mSmall = mSmall ∧
      (hasPrintScore tCvOk = true ↔ true = true)) ∧
    (Ev.fitPrimary Portion.full ∈ [Ev.fitPrimary Portion.full] ∧
      mSmall = mSmall ∧
      (hasPrintScore [Ev.fitPrimary Portion.full] = true ↔ false = true)) :=
  ⟨train_always_fits_full mSmall true oPlain tCvOk mSmall rfl,
   train_always_fits_full mSmall false oPlain [Ev.fitPrimary Portion.full]
     mSmall rfl⟩

/-- C4: when `pipeline_options` is supplied the effective options equal
exactly `pipeline_options` — defaults fully overridden and
`extra_pipeline_options` ignored entirely, whether supplied or not; when only
`extra_pipeline_options` is supplied the effective options are the defaults
merged with it, so the default `mask` entry and every extra entry are both
present. -/
theorem pipeline_options_resolution (m : MgrState) (p e : Options) (k : String) :
    effectivePipelineOptions (default_pipeline_options m) (some p) (some e) = p ∧
    effectivePipelineOptions (default_pipeline_options m) (some p) none = p ∧
    (alookup e "mask" = none →
      alookup (effectivePipelineOptions (default_pipeline_options m) none (some e))
        "mask" = some (OptVal.maskV m.mask)) ∧
    (∀ v, alookup e k = some v →
      alookup (effectivePipelineOptions (default_pipeline_options m) none (some e))
        k = some v) ∧
    (alookup e k = none →
      alookup (effectivePipelineOptions (default_pipeline_options m) none (some e))
        k = alookup (default_pipeline_options m) k) := by
  refine ⟨rfl, rfl, ?_, ?_, ?_⟩
  · intro h
    simp [effectivePipelineOptions, alookup_dictUpdate, h,
      default_pipeline_options, alookup]
  · intro v h
    simp [effectivePipelineOptions, alookup_dictUpdate, h]
  · intro h
    simp [effectivePipelineOptions, alookup_dictUpdate, h]

/-- Witness for C4 on concrete inputs: with defaults `{"mask": ...}` and
`extra_pipeline_options = {"learner": ...}`, the effective options hold both
the default mask entry and the extra learner entry. -/
theorem pipeline_options_resolution_witness :
    alookup (effectivePipelineOptions (default_pipeline_options mWit) none (some eWit))
      "mask" = some (OptVal.maskV mWit.mask) ∧
    alookup (effectivePipelineOptions (default_pipeline_options mWit) none (some eWit))
      "learner" = some (OptVal.learnerV "PlainLearner") :=
  ⟨(pipeline_options_resolution mWit [] eWit "learner").2.2.1 rfl,
   (pipeline_options_resolution mWit [] eWit "learner").2.2.2.1
     (OptVal.learnerV "PlainLearner") rfl⟩

/-- C5: for both task types, looking up the tiered super-learner profile of
any tier yields the `SimpleTabularPipeline` configuration whose learner is
`SuperLearner`, whose `cv` is the spec's fold count for that tier (10/5/3/3
for mini/mid/large/x-large), and whose `base_estimators` is exactly the
`_default_estimators` list of that task type and tier; in particular
`SuperLearner.mid` for classification resolves to `cv = 5` with the
classification `mid` tier list. -/
theorem superlearner_tier_bindings (task : TaskType) (tier : TierName) :
    resolveConfiguration task (superProfileKey tier) =
      some ⟨PipelineClass.SimpleTabularPipeline,
            ⟨LearnerClass.SuperLearner,
             LearnerKwargs.cvEstimators (specTierCV tier) ⟨task, tier⟩⟩⟩ := by
  cases task <;> cases tier <;> rfl

/-- C7: `evaluate` re-prepares the test data with `training = False`, so the
categorical mask computed there is empty; the manager state — including the
stored training-time mask — is returned unchanged, and a repeated `evaluate`
call on the same test data yields the same result. -/
theorem evaluate_no_mask_mutation (c : Collab) (m : MgrState) (d : DataIn) :
    (prepareData c m.features m.target d false).2.2 = [] ∧
    (evaluate c m d).1 = m ∧
    evaluate c (evaluate c m d).1 d = evaluate c m d := by
  by_cases h : m.task = "tabular_classification" <;>
    exact ⟨rfl, by simp [evaluate, h], by simp [evaluate, h]⟩

/-- C8: construction fails with a `ConfigurationError` when exactly one of
`features` and `target` is given; with both given they are used as supplied,
and with neither given the default split applies — the last column is the
target and all other columns are the features. -/
theorem features_target_validation (f : List Nat) (t : Nat) (ncols : Nat) :
    resolveColumns (some f) none ncols = .error FalconError.configurationError ∧
    resolveColumns none (some t) ncols = .error FalconError.configurationError ∧
    resolveColumns none none ncols = .ok (List.range (ncols - 1), ncols - 1) ∧
    resolveColumns (some f) (some t) ncols = .ok (f, t) :=
  ⟨rfl, rfl, rfl, rfl⟩

/-- C9: in `_prepare_data`, a target that arrives two-dimensional after the
split-and-clean step is flattened by `ravel` before being returned, and
whenever the incoming target is one- or two-dimensional (as numpy's column
selection yields) the `y` component of the prepared triple is
one-dimensional. -/
theorem prepare_y_one_dim (c : Collab) (f : Option (List Nat))
    (tg : Option Nat) (d : DataIn) (training : Bool) :
    ((c.clean_data_split (c.split_features (loadData c d) f tg)).2.shape.length = 2 →
      (prepareData c f tg d training).2.1 =
        ravel (c.clean_data_split (c.split_features (loadData c d) f tg)).2) ∧
    ((c.clean_data_split (c.split_features (loadData c d) f tg)).2.shape.length = 1 ∨
     (c.clean_data_split (c.split_features (loadData c d) f tg)).2.shape.length = 2 →
      ((prepareData c f tg d training).2.1).shape.length = 1) := by
  constructor
  · intro h
    simp [prepareData, h]
  · rintro (h | h) <;> simp [prepareData, h, ravel]

/-- Witness for C9 on concrete collaborators whose split step returns a
3 x 1 target: the prepared target equals its `ravel` and is
one-dimensional. -/
theorem prepare_y_one_dim_witness :
    (prepareData cWit none none dWit true).2.1 =
      ravel ⟨[3, 1], ([1, 2, 3] : List Int)⟩ ∧
    ((prepareData cWit none none dWit true).2.1).shape.length = 1 :=
  ⟨(prepare_y_one_dim cWit none none dWit true).1 rfl,
   (prepare_y_one_dim cWit none none dWit true).2 (Or.inr rfl)⟩

/-- C10: `evaluate` dispatches on the task string with a bare two-way branch:
the printed report is the classification report exactly when `self.task`
equals `"tabular_classification"`, and for every other task string —
including invalid ones — it is the regression report; no error branch exists
for an unrecognized task at evaluate time. -/
theorem evaluate_dispatch (c : Collab) (m : MgrState) (d : DataIn) :
    ((evaluate c m d).2.isClassificationReport = true ↔
      m.task = "tabular_classification") ∧
    ((evaluate c m d).2.isRegressionReport = true ↔
      ¬m.task = "tabular_classification") := by
  by_cases h : m.task = "tabular_classification" <;>
    simp [evaluate, h, Report.isClassificationReport, Report.isRegressionReport]

end Falcon
